import Mathlib

/-!
Verification of the authentication/authorization core of the NGO-website
backend (Express + Sequelize).  The JavaScript handlers are shallowly
embedded as pure Lean functions: asynchronous store lookups become explicit
`Except`-valued function parameters, thrown exceptions become `Except.error`
values handled exactly where the `try/catch` blocks of the source handle
them, and HTTP responses become status/body pairs.  The express-validator
chains, pagination, sorting and search plumbing are outside the spec's scope
and are not modelled; the handlers are embedded from the first line after
those chains.
-/

namespace NGO

/-- A JavaScript primitive value as it appears in the fields the auth core
compares with `===`: `undefined` (absent property), SQL/JSON `null`, or a
number.  `undefined === null` is `false` in JavaScript, so the two are kept
distinct. -/
inductive JsVal where
  | undef
  | null
  | num (n : Nat)
deriving DecidableEq, Repr

/-- JavaScript strict equality `===` on the values of `JsVal`. -/
def jsStrictEq : JsVal → JsVal → Bool
  | .undef, .undef => true
  | .null, .null => true
  | .num a, .num b => a == b
  | _, _ => false

/-- A JSON scalar appearing in a response body. -/
inductive JVal where
  | jbool (b : Bool)
  | jstr (s : String)
  | jnum (n : Nat)
  | jnull
deriving DecidableEq, Repr

/-- A JSON object, i.e. a Sequelize `dataValues` bag: ordered key/value
pairs. -/
abbrev JObj := List (String × JVal)

/-- An HTTP response body: `res.send(string)`, `res.json(object)`, or a list
endpoint's `data` array of serialized rows. -/
inductive ResBody where
  | text (s : String)
  | json (o : JObj)
  | jsonRows (rows : List JObj)
deriving DecidableEq, Repr

/-- Modelled from the spec: the bcryptjs hash string (library code, not in
the repository).  The spec's Password Hasher produces a "deterministic-format"
string embedding the cost factor, a fresh random salt and the derived MAC;
this structure models exactly the content of that string. -/
structure BcryptDigest where
  cost : Nat
  salt : Nat
  mac : Nat
deriving DecidableEq, Repr

/-- Modelled from the spec: the one-way key derivation inside bcryptjs
(library code, not in the repository).  Deterministic in plaintext, salt and
cost, as section 4.1 of the spec requires. -/
def bcryptKdf (plaintext : String) (salt cost : Nat) : Nat :=
  (plaintext.toList.foldl (fun a c => a * 131 + c.toNat) 7) * (2 * salt + 1) + cost

/-- Modelled from the spec: `bcrypt.hashSync(plaintext, cost)`.  The fresh
random salt drawn by the library is an explicit parameter. -/
def bcryptHashSync (plaintext : String) (cost : Nat) (salt : Nat) : BcryptDigest :=
  { cost := cost, salt := salt, mac := bcryptKdf plaintext salt cost }

/-- Modelled from the spec: `bcrypt.compareSync(plaintext, hash)` recomputes
the derivation with the salt and cost embedded in the hash and compares. -/
def bcryptCompareSync (plaintext : String) (d : BcryptDigest) : Bool :=
  bcryptKdf plaintext d.salt d.cost == d.mac

/-- Modelled from the spec: `jwt.sign({id}, secret, {expiresIn})` of
jsonwebtoken (library code, not in the repository) — a signed three-segment
`header.payload.signature` string, as issued by `exports.login`. -/
def jwtSign (id : Nat) (secret : Nat) (expiresIn : Nat) : String :=
  "eyJhbGciOiJIUzI1NiJ9." ++ toString id ++ "." ++ toString ((id + expiresIn + 3) * (2 * secret + 1))

/-- The claims recovered by `jwt.verify` from a token: `exports.login` of
authController signs `{id: user.id}` and the second controller version signs
`{id, type}`; the middleware reads only `decoded.id`. -/
structure Claims where
  id : Nat
  type : String
deriving DecidableEq, Repr

/-- The error thrown by `jwt.verify`: `TokenExpiredError` or the
invalid-signature/malformed-structure `JsonWebTokenError`. -/
inductive TokenError where
  | expired
  | invalid
deriving DecidableEq, Repr

/-- A transient data-store failure: the rejection of a Sequelize query
promise. -/
inductive StoreError where
  | connError
deriving DecidableEq, Repr

/-- A persisted `User` row as the auth core reads and writes it: the
controllers read `user.type` and write `type`; the model has no
organization-id column. -/
structure UserRec where
  id : Nat
  username : String
  password : BcryptDigest
  type : String
deriving DecidableEq, Repr

/-- The principal the middleware hangs off `req.user`.  The source assigns
exactly `{ id: decoded.id, type: user.type }`; `ngo_id` is therefore the
JavaScript `undefined` on every principal the middleware produces, and is
carried here explicitly because the report controller dereferences
`currentUser.ngo_id`. -/
structure Principal where
  id : Nat
  type : String
  ngo_id : JsVal := .undef
deriving DecidableEq, Repr

/-- Terminal outcome of the authentication middleware per request:
short-circuit with a status and body, or attach a principal and call
`next()`. -/
inductive AuthOutcome where
  | rejected (status : Nat) (body : String)
  | authenticated (p : Principal)
deriving DecidableEq, Repr

/-- `token.startsWith("Bearer ") ? token.split(" ")[1] : token` from
authMiddleware.js line 12, computed over the character list of the header. -/
def stripBearer (t : String) : String :=
  if t.toList.take 7 = "Bearer ".toList then
    ((t.toList.splitOn ' ').map List.asString).getD 1 ""
  else t

/-- The authentication middleware (src/middleware/authMiddleware.js).
`verify` is `jwt.verify(·, process.env.SECRET)` and `findByPk` is
`User.findByPk`; both throw into the single `catch` block, which answers
400 "Invalid token.".  An absent header and the falsy empty-string header
take the `!token` branch. -/
def authMiddleware (verify : String → Except TokenError Claims)
    (findByPk : Nat → Except StoreError (Option UserRec))
    (authHeader : Option String) : AuthOutcome :=
  match authHeader with
  | Option.none => .rejected 401 "Access denied. No token provided."
  | Option.some t =>
    if t = "" then .rejected 401 "Access denied. No token provided."
    else
      match verify (stripBearer t) with
      | .error _ => .rejected 400 "Invalid token."
      | .ok decoded =>
        match findByPk decoded.id with
        | .error _ => .rejected 400 "Invalid token."
        | .ok Option.none => .rejected 404 "User not found."
        | .ok (Option.some user) => .authenticated { id := decoded.id, type := user.type }

/-- Outcome of an inline middleware: pass to the handler via `next()`, or
short-circuit with a status and body. -/
inductive MWOutcome where
  | next
  | denied (status : Nat) (body : String)
deriving DecidableEq, Repr

/-- The inline `adminMiddleware` of eventRoutes.js: only `type === "admin"`
principals pass; everyone else is denied with 401. -/
def adminMiddleware (currentUser : Principal) : MWOutcome :=
  if currentUser.type == "admin" then .next
  else .denied 401 "Unauthorized. Only admin users can access this resource."

/-- Result of a registration handler: HTTP status, response message, and the
user table after the call (so "creates no record" is observable). -/
structure RegResult where
  status : Nat
  message : String
  store : List UserRec
deriving DecidableEq, Repr

/-- `exports.adminRegister` of authController.js.  The route
`POST /auth/register/admin` is mounted WITHOUT authMiddleware and the handler
never reads `req.user`: it hashes the password with cost 8 and inserts an
`admin` row unconditionally.  `salt` is the fresh salt bcryptjs draws and
`freshId` the id Sequelize generates. -/
def adminRegister (username password : String) (salt freshId : Nat)
    (store : List UserRec) : RegResult :=
  { status := 200
    message := "User registered successfully as admin."
    store := store ++ [{ id := freshId, username := username,
                         password := bcryptHashSync password 8 salt, type := "admin" }] }

/-- `exports.ngoAdminRegister` of authController.js (second controller
version): creates an `ngo_admin` row when `req.user && req.user.type ===
"admin"`, otherwise answers 403 and creates nothing. -/
def ngoAdminRegister (reqUser : Option Principal) (username password : String)
    (salt freshId : Nat) (store : List UserRec) : RegResult :=
  match reqUser with
  | Option.some u =>
    if u.type == "admin" then
      { status := 200
        message := "User registered successfully as ngo admin."
        store := store ++ [{ id := freshId, username := username,
                             password := bcryptHashSync password 8 salt, type := "ngo_admin" }] }
    else
      { status := 403, message := "Access denied. Only admin can create school admins.", store := store }
  | Option.none =>
      { status := 403, message := "Access denied. Only admin can create school admins.", store := store }

/-- `exports.volunteerRegister` of authController.js: same guard as
`ngoAdminRegister` but creates a `volunteer` row. -/
def volunteerRegister (reqUser : Option Principal) (username password : String)
    (salt freshId : Nat) (store : List UserRec) : RegResult :=
  match reqUser with
  | Option.some u =>
    if u.type == "admin" then
      { status := 200
        message := "User registered successfully as volunteer."
        store := store ++ [{ id := freshId, username := username,
                             password := bcryptHashSync password 8 salt, type := "volunteer" }] }
    else
      { status := 403, message := "Access denied. Only admin can create volunteers.", store := store }
  | Option.none =>
      { status := 403, message := "Access denied. Only admin can create volunteers.", store := store }

/-- `exports.login` of authController.js: `User.findOne({where: {username}})`,
404 on no row, `bcrypt.compareSync` against the stored hash, 401 with
`{auth:false, token:null}` on mismatch, otherwise `jwt.sign({id}, SECRET,
{expiresIn: 86400})` and 200 with `{auth:true, token}`. -/
def login (store : List UserRec) (secret : Nat) (username password : String) :
    Nat × ResBody :=
  match store.find? (fun u => u.username == username) with
  | Option.none => (404, .text "User not found.")
  | Option.some user =>
    if bcryptCompareSync password user.password then
      (200, .json [("auth", .jbool true),
                   ("token", .jstr (jwtSign user.id secret 86400))])
    else
      (401, .json [("auth", .jbool false), ("token", .jnull)])

/-- A persisted `Report` row as the report controller reads it; `ngo_id` is
the SQL value (`null` or a number) Sequelize surfaces. -/
structure Report where
  id : Nat
  beneficiary_id : Nat
  aid_amount : Int
  aid_date : String
  ngo_id : JsVal
deriving DecidableEq, Repr

/-- The inline scoped-owner conjunct of reportController.js:
`currentUser.type === "ngo_admin" && currentUser.ngo_id === report.ngo_id`. -/
def ngoOwnerPred (currentUser : Principal) (report : Report) : Bool :=
  currentUser.type == "ngo_admin" && jsStrictEq currentUser.ngo_id report.ngo_id

/-- The full access test of `exports.getReportById` (and the update/delete
handlers): `currentUser.type === "admin" || (ngo_admin && matching ngo_id)`. -/
def reportAccess (currentUser : Principal) (report : Report) : Bool :=
  currentUser.type == "admin" || ngoOwnerPred currentUser report

/-- Outcome of a report-fetching handler. -/
inductive ReportRes where
  | ok (status : Nat) (r : Report)
  | err (status : Nat) (body : String)
deriving DecidableEq, Repr

/-- `exports.getReportById` of reportController.js after the validator chain:
load `Report.findByPk(id)` first, 404 if absent, and only then evaluate the
admin/scoped-owner predicate (200 or 401); a thrown store error lands in the
catch block as 500. -/
def getReportById (findRpt : Nat → Except StoreError (Option Report))
    (currentUser : Principal) (id : Nat) : ReportRes :=
  match findRpt id with
  | .error _ => .err 500 "Internal server error"
  | .ok Option.none => .err 404 "Report not found."
  | .ok (Option.some report) =>
    if reportAccess currentUser report then .ok 200 report
    else .err 401 "Unauthorized. You do not have access to this report."

/-- `exports.createReport` of reportController.js after the validator chain:
unconditionally inserts `{beneficiary_id, aid_amount, aid_date, ngo_id:
currentUser.ngo_id}` and answers 201 with the created row. -/
def createReport (currentUser : Principal) (beneficiary_id : Nat)
    (aid_amount : Int) (aid_date : String) (freshId : Nat)
    (store : List Report) : Nat × List Report × Report :=
  let report : Report :=
    { id := freshId, beneficiary_id := beneficiary_id, aid_amount := aid_amount,
      aid_date := aid_date, ngo_id := currentUser.ngo_id }
  (201, store ++ [report], report)

/-- `delete user.dataValues.password` applied to a serialized row. -/
def deletePassword (o : JObj) : JObj :=
  o.filter (fun kv => kv.1 != "password")

/-- `exports.getAllBeneficiaries` of beneficiaryController.js after the
validator chain, with the pagination/sort/search plumbing out of scope:
non-admins get 401; otherwise every fetched row has its `password` field
deleted before the rows are serialized into the `data` array. -/
def getAllBeneficiaries (currentUser : Principal) (rows : List JObj) :
    Nat × ResBody :=
  if currentUser.type != "admin" then
    (401, .text "Unauthorized. Only admin users can view beneficiaries.")
  else
    (200, .jsonRows (rows.map deletePassword))

/-- `exports.createBeneficiary` of beneficiaryController.js after the
validator chain: non-admins get 401; otherwise `Beneficiary.create(req.body)`
inserts the body verbatim (Sequelize adds the generated id) and the created
row — password field included — is sent back with 201. -/
def createBeneficiary (currentUser : Principal) (body : JObj) (freshId : Nat) :
    Nat × ResBody :=
  if currentUser.type != "admin" then
    (401, .text "Unauthorized. Only admin users can create beneficiaries.")
  else
    (201, .json (("id", .jnum freshId) :: body))

/-- A concrete verifier environment: every token verifies to the claims
`{id: 1, type: "volunteer"}` (a token issued while the subject was a
volunteer). -/
def verifyOkVolunteer : String → Except TokenError Claims :=
  fun _ => .ok { id := 1, type := "volunteer" }

/-- A concrete store environment in which every lookup fails transiently. -/
def storeErrAlways : Nat → Except StoreError (Option UserRec) :=
  fun _ => .error .connError

/-- A concrete store environment with no matching user row. -/
def storeMissing : Nat → Except StoreError (Option UserRec) :=
  fun _ => .ok Option.none

/-- A concrete store environment whose live record for every id carries the
role `admin` (the subject was promoted after token issuance). -/
def storeLiveAdmin : Nat → Except StoreError (Option UserRec) :=
  fun _ => .ok (Option.some { id := 1, username := "alice",
                              password := bcryptHashSync "secret123" 8 3, type := "admin" })

/-- A concrete store environment whose live record carries the role
`ngo_admin`. -/
def storeLiveNgoAdmin : Nat → Except StoreError (Option UserRec) :=
  fun _ => .ok (Option.some { id := 1, username := "nadia",
                              password := bcryptHashSync "pw" 8 0, type := "ngo_admin" })

/-- A concrete report store with no report at any id. -/
def storeNoReport : Nat → Except StoreError (Option Report) :=
  fun _ => .ok Option.none

/-- A seeded credential table with one admin record for `alice` whose hash
was produced from the password `secret123`. -/
def seededStore : List UserRec :=
  [{ id := 1, username := "alice", password := bcryptHashSync "secret123" 8 3, type := "admin" }]

/-- The issued token string is never empty: it always contains the
21-character header segment. -/
theorem jwtSign_ne_empty (id secret e : Nat) : jwtSign id secret e ≠ "" := by
  unfold jwtSign
  intro h
  have h2 := congrArg String.length h
  simp only [String.length_append] at h2
  have h3 : ("eyJhbGciOiJIUzI1NiJ9." : String).length = 21 := rfl
  have h4 : ("" : String).length = 0 := rfl
  omega

/-- C1: every inbound request terminates in exactly one of the spec's
outcomes with the stated status — absent (or falsy) Authorization header:
401; token verification failure: a generic 400 "Invalid token." carrying no
internal detail and not distinguishing expired from invalid (both `error`
cases land in one branch); verified token with no live credential row: 404;
verified token with a live row: a principal is attached and control passes
to the next handler.  The final disjunction shows no other outcome is
reachable, and every rejection short-circuits without reaching business
logic. -/
theorem authMiddleware_outcome_partition
    (verify : String → Except TokenError Claims)
    (findByPk : Nat → Except StoreError (Option UserRec))
    (hdr : Option String) :
    ((hdr = Option.none ∨ hdr = Option.some "") →
      authMiddleware verify findByPk hdr = .rejected 401 "Access denied. No token provided.") ∧
    (∀ t e, hdr = Option.some t → t ≠ "" → verify (stripBearer t) = .error e →
      authMiddleware verify findByPk hdr = .rejected 400 "Invalid token.") ∧
    (∀ t c, hdr = Option.some t → t ≠ "" → verify (stripBearer t) = .ok c →
      findByPk c.id = .ok Option.none →
      authMiddleware verify findByPk hdr = .rejected 404 "User not found.") ∧
    (∀ t c u, hdr = Option.some t → t ≠ "" → verify (stripBearer t) = .ok c →
      findByPk c.id = .ok (Option.some u) →
      authMiddleware verify findByPk hdr = .authenticated { id := c.id, type := u.type }) ∧
    (authMiddleware verify findByPk hdr = .rejected 401 "Access denied. No token provided." ∨
     authMiddleware verify findByPk hdr = .rejected 400 "Invalid token." ∨
     authMiddleware verify findByPk hdr = .rejected 404 "User not found." ∨
     ∃ p, authMiddleware verify findByPk hdr = .authenticated p) := by
  refine ⟨?_, ?_, ?_, ?_, ?_⟩
  · rintro (h | h) <;> subst h <;> simp [authMiddleware]
  · intro t e h1 h2 h3
    subst h1
    simp [authMiddleware, h2, h3]
  · intro t c h1 h2 h3 h4
    subst h1
    simp [authMiddleware, h2, h3, h4]
  · intro t c u h1 h2 h3 h4
    subst h1
    simp [authMiddleware, h2, h3, h4]
  · rcases hdr with _ | t
    · exact Or.inl (by simp [authMiddleware])
    · by_cases ht : t = ""
      · exact Or.inl (by simp [authMiddleware, ht])
      · cases hv : verify (stripBearer t) with
        | error e => exact Or.inr (Or.inl (by simp [authMiddleware, ht, hv]))
        | ok c =>
          cases hf : findByPk c.id with
          | error e => exact Or.inr (Or.inl (by simp [authMiddleware, ht, hv, hf]))
          | ok mu =>
            cases mu with
            | none => exact Or.inr (Or.inr (Or.inl (by simp [authMiddleware, ht, hv, hf])))
            | some u =>
              exact Or.inr (Or.inr (Or.inr
                ⟨{ id := c.id, type := u.type }, by simp [authMiddleware, ht, hv, hf]⟩))

/-- Witness for C1: a concrete request whose token verifies but whose
subject has been deleted is rejected with 404. -/
theorem authMiddleware_outcome_partition_witness :
    authMiddleware verifyOkVolunteer storeMissing (Option.some "tok")
      = .rejected 404 "User not found." :=
  (authMiddleware_outcome_partition verifyOkVolunteer storeMissing
    (Option.some "tok")).2.2.1 "tok" { id := 1, type := "volunteer" }
    rfl (by decide) rfl rfl

/-- C3: the role attached to the request context is the role of the
credential record fetched during the request, not the role embedded in the
token's claims — any principal the middleware attaches carries exactly the
live `user.type`, whatever `c.type` the token carried. -/
theorem live_role_not_token_role
    (verify : String → Except TokenError Claims)
    (findByPk : Nat → Except StoreError (Option UserRec))
    (t : String) (c : Claims) (u : UserRec)
    (ht : t ≠ "") (hv : verify (stripBearer t) = .ok c)
    (hf : findByPk c.id = .ok (Option.some u)) :
    authMiddleware verify findByPk (Option.some t)
      = .authenticated { id := c.id, type := u.type, ngo_id := .undef } ∧
    ∀ p, authMiddleware verify findByPk (Option.some t) = .authenticated p →
      p.type = u.type := by
  have h1 : authMiddleware verify findByPk (Option.some t)
      = .authenticated { id := c.id, type := u.type, ngo_id := .undef } := by
    simp [authMiddleware, ht, hv, hf]
  refine ⟨h1, ?_⟩
  intro p hp
  rw [h1] at hp
  injection hp with h2
  rw [← h2]

/-- Witness for C3: a token whose embedded role is `volunteer` presented
after the credential's role was changed to `admin` yields a principal whose
role is the new `admin`. -/
theorem live_role_not_token_role_witness :
    authMiddleware verifyOkVolunteer storeLiveAdmin (Option.some "tok")
      = .authenticated { id := 1, type := "admin", ngo_id := .undef } :=
  (live_role_not_token_role verifyOkVolunteer storeLiveAdmin "tok"
    { id := 1, type := "volunteer" }
    { id := 1, username := "alice", password := bcryptHashSync "secret123" 8 3, type := "admin" }
    (by decide) rfl rfl).1

/-- C9 counterexample: a request whose token verifies but whose principal
lookup fails with a transient store error is answered 400 "Invalid token."
— a 4xx authentication status, not a 500-class one, refuting the claim as
stated. -/
theorem store_error_answered_400 :
    authMiddleware verifyOkVolunteer storeErrAlways (Option.some "tok")
      = .rejected 400 "Invalid token." ∧ (400 : Nat) < 500 := by
  constructor
  · rfl
  · decide

/-- C9 (amended): a transient store failure during principal lookup is
swallowed by the middleware's catch-all handler and answered with the same
400 "Invalid token." as a verification failure, never a 500-class status. -/
theorem store_error_caught_as_400
    (verify : String → Except TokenError Claims)
    (findByPk : Nat → Except StoreError (Option UserRec))
    (t : String) (c : Claims) (e : StoreError)
    (ht : t ≠ "") (hv : verify (stripBearer t) = .ok c)
    (hf : findByPk c.id = .error e) :
    authMiddleware verify findByPk (Option.some t) = .rejected 400 "Invalid token." := by
  simp [authMiddleware, ht, hv, hf]

/-- Witness for amended C9: the concrete erroring store yields 400. -/
theorem store_error_caught_as_400_witness :
    authMiddleware verifyOkVolunteer storeErrAlways (Option.some "tok")
      = .rejected 400 "Invalid token." :=
  store_error_caught_as_400 verifyOkVolunteer storeErrAlways "tok"
    { id := 1, type := "volunteer" } .connError (by decide) rfl rfl

/-- C10: every principal the middleware attaches has exactly the fields
`{id, type}` — its `ngo_id` is the JavaScript `undefined`; consequently the
scoped-owner conjunct of the report controller is false against every report
whose `ngo_id` is a (non-null) number, and `createReport` run by such a
principal stores the report with an undefined `ngo_id`. -/
theorem principal_has_no_org_field
    (verify : String → Except TokenError Claims)
    (findByPk : Nat → Except StoreError (Option UserRec))
    (t : String) (c : Claims) (u : UserRec)
    (ht : t ≠ "") (hv : verify (stripBearer t) = .ok c)
    (hf : findByPk c.id = .ok (Option.some u)) :
    authMiddleware verify findByPk (Option.some t)
      = .authenticated { id := c.id, type := u.type, ngo_id := .undef } ∧
    (∀ (r : Report) (n : Nat), r.ngo_id = .num n →
      ngoOwnerPred { id := c.id, type := u.type, ngo_id := .undef } r = false) ∧
    (∀ bid amt date fid rstore,
      ((createReport { id := c.id, type := u.type, ngo_id := .undef }
          bid amt date fid rstore).2.2).ngo_id = .undef) := by
  refine ⟨?_, ?_, ?_⟩
  · simp [authMiddleware, ht, hv, hf]
  · intro r n hr
    simp [ngoOwnerPred, hr, jsStrictEq]
  · intro bid amt date fid rstore
    simp [createReport]

/-- Witness for C10: even a live `ngo_admin` principal produced by the
middleware fails the scoped-owner conjunct against a report owned by NGO 4,
and the report it creates has an undefined `ngo_id`. -/
theorem principal_has_no_org_field_witness :
    ngoOwnerPred { id := 1, type := "ngo_admin", ngo_id := .undef }
        { id := 10, beneficiary_id := 2, aid_amount := 5, aid_date := "2024-01-01",
          ngo_id := .num 4 } = false ∧
    ((createReport { id := 1, type := "ngo_admin", ngo_id := .undef }
        2 5 "2024-01-01" 10 []).2.2).ngo_id = .undef := by
  have h := principal_has_no_org_field verifyOkVolunteer storeLiveNgoAdmin "tok"
    { id := 1, type := "volunteer" }
    { id := 1, username := "nadia", password := bcryptHashSync "pw" 8 0, type := "ngo_admin" }
    (by decide) rfl rfl
  exact ⟨h.2.1 _ 4 rfl, h.2.2 2 5 "2024-01-01" 10 []⟩

/-- C2: login returns 404 when no credential has the username; 401 with body
`{auth: false, token: null}` when the password does not verify; and 200 with
body `{auth: true, token: <non-empty token>}` when it does — with exactly
the field names `auth` and `token`. -/
theorem login_contract (store : List UserRec) (secret : Nat)
    (username password : String) :
    (store.find? (fun v => v.username == username) = Option.none →
      (login store secret username password).1 = 404) ∧
    (∀ u, store.find? (fun v => v.username == username) = Option.some u →
      bcryptCompareSync password u.password = true →
      login store secret username password =
        (200, .json [("auth", .jbool true),
                     ("token", .jstr (jwtSign u.id secret 86400))]) ∧
      jwtSign u.id secret 86400 ≠ "") ∧
    (∀ u, store.find? (fun v => v.username == username) = Option.some u →
      bcryptCompareSync password u.password = false →
      login store secret username password =
        (401, .json [("auth", .jbool false), ("token", .jnull)])) := by
  refine ⟨?_, ?_, ?_⟩
  · intro h
    simp [login, h]
  · intro u hu hc
    exact ⟨by simp [login, hu, hc], jwtSign_ne_empty u.id secret 86400⟩
  · intro u hu hc
    simp [login, hu, hc]

/-- Witness for C2: against the seeded record, the correct
`alice`/`secret123` pair logs in with 200, `auth: true` and a non-empty
token. -/
theorem login_contract_witness :
    login seededStore 9 "alice" "secret123" =
      (200, .json [("auth", .jbool true), ("token", .jstr (jwtSign 1 9 86400))]) ∧
    jwtSign 1 9 86400 ≠ "" :=
  (login_contract seededStore 9 "alice" "secret123").2.1
    { id := 1, username := "alice", password := bcryptHashSync "secret123" 8 3, type := "admin" }
    (by decide) (by decide)

/-- C4 counterexample: an authenticated `volunteer` principal failing the
admin check of `ngoAdminRegister` is answered 403, not the claimed universal
401. -/
theorem ngoAdminRegister_denial_is_403 :
    (ngoAdminRegister (Option.some { id := 2, type := "volunteer", ngo_id := .undef })
        "eve" "pw" 0 5 []).status = 403 ∧ (403 : Nat) ≠ 401 := by
  constructor
  · rfl
  · decide

/-- C4 (amended): authorization denial yields 401 in the route-level admin
middleware and the resource controllers, but the elevated-role registration
handlers `ngoAdminRegister` and `volunteerRegister` deny with 403 instead. -/
theorem denial_statuses (p : Principal) (hp : p.type ≠ "admin")
    (username password : String) (salt freshId : Nat) (store : List UserRec)
    (rows : List JObj) (body : JObj) :
    adminMiddleware p = .denied 401 "Unauthorized. Only admin users can access this resource." ∧
    (getAllBeneficiaries p rows).1 = 401 ∧
    (createBeneficiary p body freshId).1 = 401 ∧
    (ngoAdminRegister (Option.some p) username password salt freshId store).status = 403 ∧
    (ngoAdminRegister (Option.some p) username password salt freshId store).store = store ∧
    (volunteerRegister (Option.some p) username password salt freshId store).status = 403 ∧
    (volunteerRegister (Option.some p) username password salt freshId store).store = store := by
  have hb : (p.type == "admin") = false := beq_eq_false_iff_ne.mpr hp
  refine ⟨?_, ?_, ?_, ?_, ?_, ?_, ?_⟩ <;>
    simp [adminMiddleware, getAllBeneficiaries, createBeneficiary,
          ngoAdminRegister, volunteerRegister, hb, hp]

/-- Witness for amended C4: a concrete volunteer principal is denied with
401 by the middleware and controllers and with 403 by the registration
handlers, which create no record. -/
theorem denial_statuses_witness :
    adminMiddleware { id := 2, type := "volunteer", ngo_id := .undef }
      = .denied 401 "Unauthorized. Only admin users can access this resource." ∧
    (getAllBeneficiaries { id := 2, type := "volunteer", ngo_id := .undef } []).1 = 401 ∧
    (createBeneficiary { id := 2, type := "volunteer", ngo_id := .undef } [] 7).1 = 401 ∧
    (ngoAdminRegister (Option.some { id := 2, type := "volunteer", ngo_id := .undef })
        "eve" "pw" 0 5 []).status = 403 ∧
    (ngoAdminRegister (Option.some { id := 2, type := "volunteer", ngo_id := .undef })
        "eve" "pw" 0 5 []).store = [] ∧
    (volunteerRegister (Option.some { id := 2, type := "volunteer", ngo_id := .undef })
        "eve" "pw" 0 5 []).status = 403 ∧
    (volunteerRegister (Option.some { id := 2, type := "volunteer", ngo_id := .undef })
        "eve" "pw" 0 5 []).store = [] :=
  denial_statuses { id := 2, type := "volunteer", ngo_id := .undef }
    (by decide) "eve" "pw" 0 5 [] [] []

/-- C5: `getReportById` loads the addressed report first — a missing report
is answered 404 for every principal, whatever the authorization predicate
would say — and only on a loaded report is the admin/scoped-owner predicate
evaluated, deciding between 200 and 401. -/
theorem resource_loaded_before_authz
    (findRpt : Nat → Except StoreError (Option Report))
    (p : Principal) (i : Nat) :
    (findRpt i = .ok Option.none →
      getReportById findRpt p i = .err 404 "Report not found.") ∧
    (∀ r, findRpt i = .ok (Option.some r) →
      getReportById findRpt p i =
        if reportAccess p r then .ok 200 r
        else .err 401 "Unauthorized. You do not have access to this report.") := by
  refine ⟨?_, ?_⟩
  · intro h
    simp [getReportById, h]
  · intro r h
    simp [getReportById, h]

/-- Witness for C5: a principal that would fail the authorization predicate
still receives 404 on a missing report. -/
theorem resource_loaded_before_authz_witness :
    getReportById storeNoReport { id := 2, type := "volunteer", ngo_id := .undef } 99
      = .err 404 "Report not found." :=
  (resource_loaded_before_authz storeNoReport
    { id := 2, type := "volunteer", ngo_id := .undef } 99).1 rfl

/-- C6: `createBeneficiary` answers 201 with the stored record serialized
verbatim — the `password` field is present in the response body — while
`getAllBeneficiaries` deletes the field from every row it returns; the
creation endpoint therefore violates the never-return-the-password
invariant. -/
theorem createBeneficiary_returns_password_field :
    createBeneficiary { id := 1, type := "admin", ngo_id := .undef }
        [("username", .jstr "bob"), ("password", .jstr "secret123"),
         ("type", .jstr "beneficiary"), ("email", .jstr "bob@ngo.org")] 7 =
      (201, .json [("id", .jnum 7), ("username", .jstr "bob"),
                   ("password", .jstr "secret123"), ("type", .jstr "beneficiary"),
                   ("email", .jstr "bob@ngo.org")]) ∧
    ("password", JVal.jstr "secret123") ∈
      [("id", JVal.jnum 7), ("username", JVal.jstr "bob"),
       ("password", JVal.jstr "secret123"), ("type", JVal.jstr "beneficiary"),
       ("email", JVal.jstr "bob@ngo.org")] ∧
    getAllBeneficiaries { id := 1, type := "admin", ngo_id := .undef }
        [[("username", .jstr "bob"), ("password", .jstr "secret123")]] =
      (200, .jsonRows [[("username", .jstr "bob")]]) := by
  refine ⟨rfl, ?_, rfl⟩
  decide

/-- C7 counterexample: the admin-registration route is mounted without any
authentication middleware and the handler reads no principal — a request
from nobody at all is answered 200 and inserts an `admin` credential
record. -/
theorem unauthenticated_admin_register_succeeds :
    adminRegister "eve" "pw" 0 1 [] =
      { status := 200, message := "User registered successfully as admin.",
        store := [{ id := 1, username := "eve",
                    password := bcryptHashSync "pw" 8 0, type := "admin" }] } := by
  rfl

/-- C7 (amended): the guarded elevated-role registrations (`ngo_admin`,
`volunteer`) succeed only for an authenticated admin principal and otherwise
answer 403 creating no record; the admin registration itself, however, is
unguarded and creates an `admin` record for every request. -/
theorem elevated_registration_guards (reqUser : Option Principal)
    (username password : String) (salt freshId : Nat) (store : List UserRec) :
    ((reqUser = Option.none ∨ ∃ p, reqUser = Option.some p ∧ p.type ≠ "admin") →
      (ngoAdminRegister reqUser username password salt freshId store).status = 403 ∧
      (ngoAdminRegister reqUser username password salt freshId store).store = store ∧
      (volunteerRegister reqUser username password salt freshId store).status = 403 ∧
      (volunteerRegister reqUser username password salt freshId store).store = store) ∧
    (∀ p, reqUser = Option.some p → p.type = "admin" →
      (ngoAdminRegister reqUser username password salt freshId store).status = 200 ∧
      (ngoAdminRegister reqUser username password salt freshId store).store =
        store ++ [{ id := freshId, username := username,
                    password := bcryptHashSync password 8 salt, type := "ngo_admin" }]) ∧
    ((adminRegister username password salt freshId store).status = 200 ∧
     (adminRegister username password salt freshId store).store =
       store ++ [{ id := freshId, username := username,
                   password := bcryptHashSync password 8 salt, type := "admin" }]) := by
  refine ⟨?_, ?_, rfl, rfl⟩
  · rintro (h | ⟨p, hp, hadmin⟩)
    · subst h
      exact ⟨rfl, rfl, rfl, rfl⟩
    · subst hp
      have hb : (p.type == "admin") = false := beq_eq_false_iff_ne.mpr hadmin
      simp [ngoAdminRegister, volunteerRegister, hb, hadmin]
  · intro p hp hadmin
    subst hp
    have hb : (p.type == "admin") = true := beq_iff_eq.mpr hadmin
    simp [ngoAdminRegister, hb]

/-- Witness for amended C7: with no principal, both guarded registrations
answer 403 and leave the store empty. -/
theorem elevated_registration_guards_witness :
    (ngoAdminRegister Option.none "eve" "pw" 0 1 []).status = 403 ∧
    (ngoAdminRegister Option.none "eve" "pw" 0 1 []).store = [] ∧
    (volunteerRegister Option.none "eve" "pw" 0 1 []).status = 403 ∧
    (volunteerRegister Option.none "eve" "pw" 0 1 []).store = [] :=
  (elevated_registration_guards Option.none "eve" "pw" 0 1 []).1 (Or.inl rfl)

/-- C8: for every plaintext `p`, `compareSync p (hashSync p 8 s)` holds, two
hashes of the same plaintext under distinct fresh salts are distinct values
that both verify `p`, and the work factor baked into the registration
handlers' calls is the constant 8. -/
theorem bcrypt_hash_verify_roundtrip (p : String) (s1 s2 : Nat) (h : s1 ≠ s2) :
    bcryptCompareSync p (bcryptHashSync p 8 s1) = true ∧
    bcryptCompareSync p (bcryptHashSync p 8 s2) = true ∧
    bcryptHashSync p 8 s1 ≠ bcryptHashSync p 8 s2 ∧
    (bcryptHashSync p 8 s1).cost = 8 := by
  refine ⟨?_, ?_, ?_, rfl⟩
  · simp [bcryptCompareSync, bcryptHashSync]
  · simp [bcryptCompareSync, bcryptHashSync]
  · intro he
    exact h (congrArg BcryptDigest.salt he)

/-- Witness for C8: the password `secret123` hashed under two distinct
salts. -/
theorem bcrypt_hash_verify_roundtrip_witness :
    bcryptCompareSync "secret123" (bcryptHashSync "secret123" 8 0) = true ∧
    bcryptCompareSync "secret123" (bcryptHashSync "secret123" 8 1) = true ∧
    bcryptHashSync "secret123" 8 0 ≠ bcryptHashSync "secret123" 8 1 ∧
    (bcryptHashSync "secret123" 8 0).cost = 8 :=
  bcrypt_hash_verify_roundtrip "secret123" 0 1 (by decide)

end NGO
